import Mathlib

/-!
Shallow embedding of src/main.py: a per-tick trading engine with two
strategies, amethyst (static price band) and starfruit (adaptive,
lot-tracked).  Python runtime failures (KeyError, IndexError,
ZeroDivisionError, AttributeError, UnboundLocalError) are modelled with
an Except monad; dictionaries are insertion-ordered association lists,
floats are rationals, and the list.sort calls are modelled by a stable
insertion sort (Python sort is stable, so any stable sort by the same
key is extensionally identical).
-/

/-- An emitted order, Order(symbol, price, quantity); positive quantity
buys, negative sells. -/
structure Order where
  symbol : String
  price : Int
  quantity : Int
deriving DecidableEq, Repr

/-- Python runtime errors that the source code can raise. -/
inductive PyErr where
  | keyError
  | indexError
  | zeroDivision
  | attributeError
  | unboundLocal
  | nonTermination
deriving DecidableEq, Repr

/-- One side of the order book: an insertion-ordered price-to-size dict,
as produced by list(d.items()).  The first entry is the best level. -/
abbrev Book := List (Int × Int)

/-- OrderDepth from the host datamodel: buy side and sell side. -/
structure OrderDepth where
  buy_orders : Book
  sell_orders : Book
deriving DecidableEq, Repr

/-- StarfruitData (main.py lines 193-203): two price histories and the
long/short ledgers, dicts from price to remaining quantity.  Note that
the attribute last_prices read by update_last_prices is not among the
fields: the source never initializes it. -/
structure StarfruitData where
  last_bid_prices : List ℚ
  last_ask_prices : List ℚ
  long_at : List (Int × Int)
  short_at : List (Int × Int)
deriving DecidableEq, Repr

/-- StarfruitData.__init__ (main.py lines 196-200). -/
def StarfruitData.init : StarfruitData := ⟨[], [], [], []⟩

/-- The per-tick input fields the strategies read.  traderData is
modelled as the already-decoded blob: none stands for the empty string,
which the source maps to a fresh StarfruitData (main.py lines 233-235). -/
structure PyState where
  order_depths : List (String × OrderDepth)
  position : List (String × Int)
  traderData : Option StarfruitData
deriving Repr

/-- state.order_depths[k] lookup, none modelling a KeyError. -/
def dictFind (m : List (String × OrderDepth)) (k : String) : Option OrderDepth :=
  (m.find? (fun kv => kv.1 == k)).map Prod.snd

/-- dict.get(k, 0) on the position map. -/
def pyGet (m : List (String × Int)) (k : String) : Int :=
  ((m.find? (fun kv => kv.1 == k)).map Prod.snd).getD 0

/-- d[k] on an int-keyed dict, none modelling a KeyError. -/
def dictGet (m : List (Int × Int)) (k : Int) : Option Int :=
  (m.find? (fun kv => kv.1 == k)).map Prod.snd

/-- d[k] = v: update in place when the key exists (insertion order is
kept), otherwise append. -/
def dictSet (m : List (Int × Int)) (k : Int) (v : Int) : List (Int × Int) :=
  if m.any (fun kv => kv.1 == k) then
    m.map (fun kv => if kv.1 == k then (k, v) else kv)
  else m ++ [(k, v)]

/-- d.pop(k): remove the key, none modelling a KeyError. -/
def dictPop (m : List (Int × Int)) (k : Int) : Option (List (Int × Int)) :=
  if m.any (fun kv => kv.1 == k) then some (m.filter (fun kv => kv.1 != k)) else none

/-- Stable insertion into a list sorted ascending by price: the new
element goes before the first entry of larger-or-equal price seen from
its original position, which reproduces the stable Python sort. -/
def insertAscByPrice (x : Int × Int) : List (Int × Int) → List (Int × Int)
  | [] => [x]
  | y :: ys => if x.1 ≤ y.1 then x :: y :: ys else y :: insertAscByPrice x ys

/-- list.sort(key=lambda x: x[0]): stable ascending sort by price. -/
def sortByPrice (l : List (Int × Int)) : List (Int × Int) :=
  l.foldr insertAscByPrice []

/-- Stable insertion into a list sorted descending by price. -/
def insertDescByPrice (x : Int × Int) : List (Int × Int) → List (Int × Int)
  | [] => [x]
  | y :: ys => if y.1 ≤ x.1 then x :: y :: ys else y :: insertDescByPrice x ys

/-- list.sort(key=lambda x: x[0], reverse=True): stable descending sort
by price. -/
def sortByPriceDesc (l : List (Int × Int)) : List (Int × Int) :=
  l.foldr insertDescByPrice []

/-- main.py lines 110-111. -/
def max_buy_amt (position position_limit wanted_amt : Int) : Int :=
  min (position_limit - position) wanted_amt

/-- main.py lines 114-115. -/
def max_sell_amt (position position_limit wanted_amt : Int) : Int :=
  min (position + position_limit) wanted_amt

/-- amethyst (main.py lines 152-182): static band maker.  Each side is
guarded by an emptiness check; the position is read with .get and the
clamped amount is emitted at the best level of the crossing side. -/
def amethyst (state : PyState) : Except PyErr (List Order) :=
  match dictFind state.order_depths "AMETHYSTS" with
  | none => .error .keyError
  | some order_depth =>
    let buy_price : Int := 9998
    let sell_price : Int := 10002
    let position_limit : Int := 20
    let orders1 : List Order :=
      match order_depth.sell_orders with
      | [] => []
      | (best_ask, raw_ask_amount) :: _ =>
        let best_ask_amount := -raw_ask_amount
        if best_ask ≤ buy_price then
          let position := pyGet state.position "AMETHYSTS"
          [⟨"AMETHYSTS", best_ask, max_buy_amt position position_limit best_ask_amount⟩]
        else []
    let orders2 : List Order :=
      match order_depth.buy_orders with
      | [] => []
      | (best_bid, best_bid_amount) :: _ =>
        if best_bid ≥ sell_price then
          let position := pyGet state.position "AMETHYSTS"
          [⟨"AMETHYSTS", best_bid, -(max_sell_amt position position_limit best_bid_amount)⟩]
        else []
    .ok (orders1 ++ orders2)

/-- The long-exit while loop (main.py lines 250-264).  Fuel counts loop
iterations; exhaustion models divergence (each iteration in fact either
pops the ask list or breaks, so asks.length + 1 iterations always
suffice).  The loop condition reads the live ledger at key 0, a KeyError
unless a lot was opened at price 0; the body clamps the raw ask size,
emits an order, and conditionally mutates the ledger and the two lists. -/
def longExitLoop (fuel : Nat) (asks long_list ledger : List (Int × Int))
    (position : Int) (orders : List Order) :
    Except PyErr (List (Int × Int) × Int × List Order) :=
  match fuel with
  | 0 => .error .nonTermination
  | fuel + 1 =>
    match asks, long_list with
    | [], _ => .ok (ledger, position, orders)
    | _ :: _, [] => .ok (ledger, position, orders)
    | (ask_price, ask_amt) :: ask_rest, (ll_price, ll_amt) :: ll_rest =>
      match dictGet ledger 0 with
      | none => .error .keyError
      | some lot0 =>
        if ask_price ≥ lot0 + 4 then
          let amt_sold := max_sell_amt position 20 ask_amt
          let orders := orders ++ [⟨"STARFRUIT", ask_price, -amt_sold⟩]
          let position := position - amt_sold
          let step1 : Except PyErr (List (Int × Int) × List (Int × Int)) :=
            if amt_sold = ask_amt then
              match dictGet ledger ask_price with
              | none => .error .keyError
              | some v => .ok (dictSet ledger ask_price (v - ask_amt), ask_rest)
            else .ok (ledger, asks)
          match step1 with
          | .error e => .error e
          | .ok (ledger, asks) =>
            let step2 : Except PyErr (List (Int × Int) × List (Int × Int)) :=
              if amt_sold = ll_amt then
                match dictPop ledger ll_price with
                | none => .error .keyError
                | some popped => .ok (popped, ll_rest)
              else .ok (ledger, (ll_price, ll_amt) :: ll_rest)
            match step2 with
            | .error e => .error e
            | .ok (ledger, long_list) =>
              if position = -20 then .ok (ledger, position, orders)
              else longExitLoop fuel asks long_list ledger position orders
        else .ok (ledger, position, orders)

/-- The long-lot exit block (main.py lines 244-264): guarded by a
nonempty long ledger; sorts the asks descending and a ledger snapshot
ascending, then runs the loop.  Returns the updated long ledger, the
adjusted position and the emitted orders. -/
def longExitStep (sell_orders : Book) (long_at : List (Int × Int)) (position : Int) :
    Except PyErr (List (Int × Int) × Int × List Order) :=
  if long_at.length > 0 then
    let asks := sortByPriceDesc sell_orders
    let long_list := sortByPrice long_at
    longExitLoop (asks.length + 1) asks long_list long_at position []
  else .ok (long_at, position, [])

/-- The short-exit while loop (main.py lines 273-287), symmetric to the
long one: ascending bids, live short ledger read at key 0, buy clamp. -/
def shortExitLoop (fuel : Nat) (bids short_list ledger : List (Int × Int))
    (position : Int) (orders : List Order) :
    Except PyErr (List (Int × Int) × Int × List Order) :=
  match fuel with
  | 0 => .error .nonTermination
  | fuel + 1 =>
    match bids, short_list with
    | [], _ => .ok (ledger, position, orders)
    | _ :: _, [] => .ok (ledger, position, orders)
    | (bid_price, bid_amt) :: bid_rest, (sl_price, sl_amt) :: sl_rest =>
      match dictGet ledger 0 with
      | none => .error .keyError
      | some lot0 =>
        if bid_price ≤ lot0 - 4 then
          let amt_buy := max_buy_amt position 20 bid_amt
          let orders := orders ++ [⟨"STARFRUIT", bid_price, amt_buy⟩]
          let position := position + amt_buy
          let step1 : Except PyErr (List (Int × Int) × List (Int × Int)) :=
            if amt_buy = bid_amt then
              match dictGet ledger bid_price with
              | none => .error .keyError
              | some v => .ok (dictSet ledger bid_price (v - bid_amt), bid_rest)
            else .ok (ledger, bids)
          match step1 with
          | .error e => .error e
          | .ok (ledger, bids) =>
            let step2 : Except PyErr (List (Int × Int) × List (Int × Int)) :=
              if amt_buy = sl_amt then
                match dictPop ledger sl_price with
                | none => .error .keyError
                | some popped => .ok (popped, sl_rest)
              else .ok (ledger, (sl_price, sl_amt) :: sl_rest)
            match step2 with
            | .error e => .error e
            | .ok (ledger, short_list) =>
              if position = 20 then .ok (ledger, position, orders)
              else shortExitLoop fuel bids short_list ledger position orders
        else .ok (ledger, position, orders)

/-- The short-lot exit block (main.py lines 267-287): guarded by a
nonempty short ledger, but the scan snapshot is built from the long
ledger (source line 270 reads data.long_at.items()); returns the updated
short ledger, the position and the emitted orders. -/
def shortExitStep (buy_orders : Book) (long_at short_at : List (Int × Int)) (position : Int) :
    Except PyErr (List (Int × Int) × Int × List Order) :=
  if short_at.length > 0 then
    let bids := sortByPrice buy_orders
    let short_list := sortByPriceDesc long_at
    shortExitLoop (bids.length + 1) bids short_list short_at position []
  else .ok (short_at, position, [])

/-- The entry block (main.py lines 289-305): compares the average of each
price history against the current best level; a strict comparison fires
an entry, records it in the corresponding ledger with dict assignment,
and adjusts the position.  The averages divide by the history length, a
ZeroDivisionError when the history is empty. -/
def momentumStep (data : StarfruitData) (best_ask best_bid position : Int) :
    Except PyErr (StarfruitData × Int × List Order) :=
  if data.last_ask_prices.length = 0 then .error .zeroDivision
  else
    let avg_ask : ℚ := data.last_ask_prices.sum / (data.last_ask_prices.length : ℚ)
    let first : StarfruitData × Int × List Order :=
      if avg_ask > (best_ask : ℚ) then
        let amt_sell := max_sell_amt position 20 best_ask
        ({ data with short_at := dictSet data.short_at best_ask amt_sell },
         position - amt_sell, [⟨"STARFRUIT", best_ask, -amt_sell⟩])
      else (data, position, [])
    match first with
    | (data, position, orders) =>
      if data.last_bid_prices.length = 0 then .error .zeroDivision
      else
        let avg_bid : ℚ := data.last_bid_prices.sum / (data.last_bid_prices.length : ℚ)
        if avg_bid < (best_bid : ℚ) then
          let amt_buy := max_buy_amt position 20 best_bid
          .ok ({ data with long_at := dictSet data.long_at best_bid amt_buy },
               position + amt_buy, orders ++ [⟨"STARFRUIT", best_bid, amt_buy⟩])
        else .ok (data, position, orders)

/-- StarfruitData.update_last_prices (main.py lines 205-216): its first
statement evaluates len(self.last_prices), but last_prices is an
attribute that neither __init__ nor any other code ever sets (the class
only defines last_bid_prices and last_ask_prices), so every call raises
AttributeError before building any list; the slide-and-append logic
below that read is dead code. -/
def StarfruitData.update_last_prices (_data : StarfruitData) (_ask _bid : ℚ) :
    Except PyErr StarfruitData :=
  .error .attributeError

/-- starfruit (main.py lines 227-309): decode the blob (fresh data for an
empty one), read the best levels by indexing item 0 of each side, run
the two exit blocks, then the entry block, then the history update, and
return the orders with the re-encoded data. -/
def starfruit (state : PyState) : Except PyErr (List Order × StarfruitData) :=
  let position := pyGet state.position "STARFRUIT"
  match dictFind state.order_depths "STARFRUIT" with
  | none => .error .keyError
  | some order_depth =>
    let data := state.traderData.getD StarfruitData.init
    match order_depth.sell_orders with
    | [] => .error .indexError
    | (best_ask, _) :: _ =>
      match order_depth.buy_orders with
      | [] => .error .indexError
      | (best_bid, _) :: _ =>
        match longExitStep order_depth.sell_orders data.long_at position with
        | .error e => .error e
        | .ok (long_at1, position, orders1) =>
          let data := { data with long_at := long_at1 }
          match shortExitStep order_depth.buy_orders data.long_at data.short_at position with
          | .error e => .error e
          | .ok (short_at1, position, orders2) =>
            let data := { data with short_at := short_at1 }
            match momentumStep data best_ask best_bid position with
            | .error e => .error e
            | .ok (data, _position, orders3) =>
              match data.update_last_prices (best_ask : ℚ) (best_bid : ℚ) with
              | .error e => .error e
              | .ok data => .ok (orders1 ++ orders2 ++ orders3, data)

/-- The dispatch loop body of Trader.run (main.py lines 98-103): the
result dict and the traderData local are threaded explicitly, the local
starting out unassigned (none). -/
def runLoop (state : PyState) :
    List (String × OrderDepth) → List (String × List Order) → Option StarfruitData →
    Except PyErr (List (String × List Order) × Option StarfruitData)
  | [], result, traderData => .ok (result, traderData)
  | (product, _) :: rest, result, traderData =>
    if product = "AMETHYSTS" then
      match amethyst state with
      | .error e => .error e
      | .ok orders => runLoop state rest (result ++ [(product, orders)]) traderData
    else if product = "STARFRUIT" then
      match starfruit state with
      | .error e => .error e
      | .ok (orders, newData) => runLoop state rest (result ++ [(product, orders)]) (some newData)
    else runLoop state rest result traderData

/-- Trader.run (main.py lines 96-107): after the dispatch loop the local
traderData is passed to the flush and returned; when no STARFRUIT
product was processed the local was never assigned, an
UnboundLocalError. -/
def Trader.run (state : PyState) :
    Except PyErr (List (String × List Order) × Int × StarfruitData) :=
  match runLoop state state.order_depths [] none with
  | .error e => .error e
  | .ok (result, traderData) =>
    match traderData with
    | none => .error .unboundLocal
    | some data => .ok (result, 0, data)

/-- Count of positive successive differences of a price history (wording
of the momentum-signal specification). -/
def upCount : List ℚ → Nat
  | a :: b :: rest => (if a < b then 1 else 0) + upCount (b :: rest)
  | _ => 0

/-- Count of non-positive successive differences of a price history
(wording of the momentum-signal specification). -/
def downCount : List ℚ → Nat
  | a :: b :: rest => (if b ≤ a then 1 else 0) + downCount (b :: rest)
  | _ => 0

/-- A dict key as it appears through the JSON layer of the state codec:
the strategy writes int price keys, but a decoded blob carries string
keys. -/
inductive JKey where
  | int (i : Int)
  | str (s : String)
deriving DecidableEq, Repr

/-- Whether a key is already a string. -/
def JKey.isStr : JKey → Bool
  | .int _ => false
  | .str _ => true

/-- jsonpickle with its default keys=False coerces every non-string dict
key through repr into the JSON object key; decoding leaves it a string. -/
def jkeyStringify : JKey → JKey
  | .int i => .str (toString i)
  | .str s => .str s

/-- StarfruitData as the state codec sees it: ledger keys may be ints
(as the strategy writes them) or strings (as a decode produces them). -/
structure StarfruitBlob where
  last_bid_prices : List ℚ
  last_ask_prices : List ℚ
  long_at : List (JKey × Int)
  short_at : List (JKey × Int)
deriving DecidableEq, Repr

/-- to_str followed by jsonpickle.decode (main.py lines 202-203, 235 and
309): object attributes, numbers and list order survive exactly, while
every non-string ledger key is coerced to its decimal string
representation and is not restored to an int (jsonpickle restores
non-string dict keys only when invoked with keys=True, which the source
does not do). -/
def jsonpickleRoundTrip (d : StarfruitBlob) : StarfruitBlob :=
  { d with
    long_at := d.long_at.map (fun kv => (jkeyStringify kv.1, kv.2)),
    short_at := d.short_at.map (fun kv => (jkeyStringify kv.1, kv.2)) }

/-- Tick input for the amethyst end-to-end scenario: best ask 9995 of
available size 5 (raw size -5), best bid 10005 of size 3, position 0. -/
def amethystScenarioState : PyState :=
  ⟨[("AMETHYSTS", ⟨[(10005, 3)], [(9995, -5)]⟩)], [], none⟩

/-- Decoded state with a single long lot at price 10 of quantity 5. -/
def singleLotData : StarfruitData := ⟨[10], [10], [(10, 5)], []⟩

/-- Tick input for the single-long-lot exit scenario: best bid 16 with
depth 5, best ask 17. -/
def singleLotState : PyState :=
  ⟨[("STARFRUIT", ⟨[(16, 5)], [(17, -4)]⟩)], [], some singleLotData⟩

/-- Cold-start tick input: empty prior blob, both book sides populated. -/
def coldStartState : PyState :=
  ⟨[("STARFRUIT", ⟨[(4, 1)], [(5, -1)]⟩)], [], none⟩

/-- Decoded state with empty ledgers and the tied history 10, 11, 10 on
both the bid and the ask side. -/
def tiedHistoryData : StarfruitData := ⟨[10, 11, 10], [10, 11, 10], [], []⟩

/-- Decoded state with empty ledgers and one-point histories. -/
def quietData : StarfruitData := ⟨[10], [10], [], []⟩

/-- Tick input on which neither entry condition fires: history average
10 against best ask 12 and best bid 9. -/
def quietState : PyState :=
  ⟨[("STARFRUIT", ⟨[(9, 1)], [(12, -2)]⟩)], [], some quietData⟩

theorem insertAscByPrice_length (x : Int × Int) (l : List (Int × Int)) :
    (insertAscByPrice x l).length = l.length + 1 := by
  induction l with
  | nil => rfl
  | cons y ys ih => simp only [insertAscByPrice]; split <;> simp [ih]

theorem sortByPrice_length (l : List (Int × Int)) :
    (sortByPrice l).length = l.length := by
  induction l with
  | nil => rfl
  | cons x xs ih =>
    show (insertAscByPrice x (sortByPrice xs)).length = xs.length + 1
    rw [insertAscByPrice_length, ih]

theorem insertDescByPrice_length (x : Int × Int) (l : List (Int × Int)) :
    (insertDescByPrice x l).length = l.length + 1 := by
  induction l with
  | nil => rfl
  | cons y ys ih => simp only [insertDescByPrice]; split <;> simp [ih]

theorem sortByPriceDesc_length (l : List (Int × Int)) :
    (sortByPriceDesc l).length = l.length := by
  induction l with
  | nil => rfl
  | cons x xs ih =>
    show (insertDescByPrice x (sortByPriceDesc xs)).length = xs.length + 1
    rw [insertDescByPrice_length, ih]

/-- Each iteration of the long-exit loop appends exactly one order, so a
successful run of the loop emits at most fuel orders beyond the initial
list. -/
theorem longExitLoop_orders_le (fuel : Nat) :
    ∀ asks long_list ledger position orders res,
      longExitLoop fuel asks long_list ledger position orders = .ok res →
      res.2.2.length ≤ orders.length + fuel := by
  induction fuel with
  | zero =>
    intro _ _ _ _ _ _ h
    exact absurd h (by simp [longExitLoop])
  | succ fuel ih =>
    intro asks long_list ledger position orders res h
    cases asks with
    | nil => simp only [longExitLoop] at h; cases h; simp
    | cons a ask_rest =>
      cases long_list with
      | nil => simp only [longExitLoop] at h; cases h; simp
      | cons b ll_rest =>
        obtain ⟨ask_price, ask_amt⟩ := a
        obtain ⟨ll_price, ll_amt⟩ := b
        simp only [longExitLoop] at h
        repeat' first
          | split at h
          | dsimp only at h
        all_goals try cases h
        all_goals try (simp only [List.length_append, List.length_cons, List.length_nil]; omega)
        all_goals
          have h2 := ih _ _ _ _ _ _ h
          simp only [List.length_append, List.length_cons, List.length_nil] at h2 ⊢
          omega

/-- Each iteration of the short-exit loop appends exactly one order, so a
successful run of the loop emits at most fuel orders beyond the initial
list. -/
theorem shortExitLoop_orders_le (fuel : Nat) :
    ∀ bids short_list ledger position orders res,
      shortExitLoop fuel bids short_list ledger position orders = .ok res →
      res.2.2.length ≤ orders.length + fuel := by
  induction fuel with
  | zero =>
    intro _ _ _ _ _ _ h
    exact absurd h (by simp [shortExitLoop])
  | succ fuel ih =>
    intro bids short_list ledger position orders res h
    cases bids with
    | nil => simp only [shortExitLoop] at h; cases h; simp
    | cons a bid_rest =>
      cases short_list with
      | nil => simp only [shortExitLoop] at h; cases h; simp
      | cons b sl_rest =>
        obtain ⟨bid_price, bid_amt⟩ := a
        obtain ⟨sl_price, sl_amt⟩ := b
        simp only [shortExitLoop] at h
        repeat' first
          | split at h
          | dsimp only at h
        all_goals try cases h
        all_goals try (simp only [List.length_append, List.length_cons, List.length_nil]; omega)
        all_goals
          have h2 := ih _ _ _ _ _ _ h
          simp only [List.length_append, List.length_cons, List.length_nil] at h2 ⊢
          omega

/-- C9: on a tick with position 0, best ask 9995 of available size 5 and
best bid 10005 of size 3, the static-band strategy emits exactly two
orders, a buy of 5 at 9995 and a sell of 3 at 10005, and both keep the
position inside the interval from -20 to 20. -/
theorem C9_amethyst_scenario :
    amethyst amethystScenarioState =
      .ok [⟨"AMETHYSTS", 9995, 5⟩, ⟨"AMETHYSTS", 10005, -3⟩] ∧
    (-20 ≤ (0 : Int) + 5 ∧ (0 : Int) + 5 ≤ 20) ∧
    (-20 ≤ (0 : Int) + -3 ∧ (0 : Int) + -3 ≤ 20) :=
  ⟨rfl, by decide, by decide⟩

/-- C1: the claimed position-limit invariant fails in the code.  With
host position 20 (inside the limit), a well-formed book whose only ask
is price 10 with raw size -5, and a long ledger holding lots at prices 0
and 10, the long-exit block passes the raw negative ask size to
max_sell_amt, clamps to -5, and emits an order of quantity +5 while the
position at that decision is 20, driving it to 25, outside the limit of
20 (the sibling amethyst code negates the raw size first, main.py line
162, which this loop omits at line 251). -/
theorem C1_long_exit_limit_violation :
    longExitStep [(10, -5)] [(0, 1), (10, 2)] 20 =
      .ok ([(0, 1), (10, 7)], 25, [⟨"STARFRUIT", 10, 5⟩]) ∧
    ¬((20 : Int) + 5 ≤ 20) :=
  ⟨rfl, by decide⟩

/-- C3: the cold-start tick is claimed not to fail, but on an empty
prior blob the decoded data has empty histories, and the entry block
divides the history sum by the history length, a ZeroDivisionError
(main.py line 289). -/
theorem C3_cold_start_zero_division :
    starfruit coldStartState = .error .zeroDivision := rfl

/-- C2 counterexample: a decoded state with exactly one long lot at
price 10 of quantity 5, best bid 16 with depth 5 and best ask 17, so the
claim requires one sell of size 5 at 16 and removal of the lot; the code
instead fails with a KeyError, because the exit loop condition reads the
long ledger at key 0 (main.py line 250), so no sell is emitted and the
lot is not removed. -/
theorem C2_counterexample :
    starfruit singleLotState = .error .keyError := rfl

/-- C2 amended: with a single long lot at a nonzero price and a nonempty
ask side, the long-exit block always fails with a KeyError on the ledger
lookup at key 0, emitting no order and leaving the ledger unchanged. -/
theorem C2_single_lot_exit_key_error (p k position : Int) (sell_orders : Book)
    (hp : p ≠ 0) (hs : sell_orders ≠ []) :
    longExitStep sell_orders [(p, k)] position = .error .keyError := by
  unfold longExitStep
  rw [if_pos (by simp)]
  have hne : sortByPriceDesc sell_orders ≠ [] := by
    intro h0
    apply hs
    have hl := sortByPriceDesc_length sell_orders
    rw [h0] at hl
    exact List.eq_nil_of_length_eq_zero hl.symm
  obtain ⟨a, rest, ha⟩ := List.exists_cons_of_ne_nil hne
  obtain ⟨ap, aq⟩ := a
  rw [ha]
  have hget : dictGet [(p, k)] 0 = none := by
    have hpb : (p == 0) = false := beq_eq_false_iff_ne.mpr hp
    simp [dictGet, List.find?, hpb]
  show longExitLoop (rest.length + 1 + 1) ((ap, aq) :: rest)
    (sortByPrice [(p, k)]) [(p, k)] position [] = .error .keyError
  simp only [longExitLoop, sortByPrice, List.foldr, insertAscByPrice, hget]

/-- C2 witness: the amended statement evaluated at lot price 10,
quantity 5, position 0 and ask list with the single level 17. -/
theorem C2_single_lot_exit_key_error_witness :
    longExitStep [(17, -4)] [(10, 5)] 0 = .error .keyError :=
  C2_single_lot_exit_key_error 10 5 0 [(17, -4)] (by decide) (by decide)

/-- C4 counterexample: the history 10, 11, 10 has one positive and one
non-positive successive difference, a tie, yet the entry block still
emits a buy entry of 11 at the best bid 11, because the code compares
the history average (31/3) against the best bid instead of counting
difference signs (main.py lines 298-305). -/
theorem C4_counterexample :
    upCount [10, 11, 10] = downCount [10, 11, 10] ∧
    momentumStep tiedHistoryData 12 11 0 =
      .ok (⟨[10, 11, 10], [10, 11, 10], [(11, 11)], []⟩, 11,
        [⟨"STARFRUIT", 11, 11⟩]) := by
  constructor
  · norm_num [upCount, downCount]
  · norm_num [momentumStep, tiedHistoryData, dictSet, max_buy_amt, max_sell_amt]

/-- C4 amended: the entry block of the adaptive strategy ignores
difference counts entirely; with nonempty histories it emits no entry
order exactly when the ask-history average is at most the best ask and
the bid-history average is at least the best bid. -/
theorem C4_entry_characterization (data : StarfruitData)
    (best_ask best_bid position : Int) (r : StarfruitData × Int × List Order)
    (ha : data.last_ask_prices ≠ []) (hb : data.last_bid_prices ≠ [])
    (h : momentumStep data best_ask best_bid position = .ok r) :
    r.2.2 = [] ↔
      data.last_ask_prices.sum / (data.last_ask_prices.length : ℚ) ≤ (best_ask : ℚ) ∧
      (best_bid : ℚ) ≤ data.last_bid_prices.sum / (data.last_bid_prices.length : ℚ) := by
  unfold momentumStep at h
  rw [if_neg (by simpa using ha)] at h
  dsimp only at h
  by_cases hc1 :
      data.last_ask_prices.sum / (data.last_ask_prices.length : ℚ) > (best_ask : ℚ)
  · rw [if_pos hc1] at h
    dsimp only at h
    rw [if_neg (by simpa using hb)] at h
    by_cases hc2 :
        data.last_bid_prices.sum / (data.last_bid_prices.length : ℚ) < (best_bid : ℚ)
    · rw [if_pos hc2] at h
      cases h
      exact iff_of_false (by simp) (fun hp => absurd hc1 (not_lt.mpr hp.1))
    · rw [if_neg hc2] at h
      cases h
      exact iff_of_false (by simp) (fun hp => absurd hc1 (not_lt.mpr hp.1))
  · rw [if_neg hc1] at h
    dsimp only at h
    rw [if_neg (by simpa using hb)] at h
    by_cases hc2 :
        data.last_bid_prices.sum / (data.last_bid_prices.length : ℚ) < (best_bid : ℚ)
    · rw [if_pos hc2] at h
      cases h
      exact iff_of_false (by simp) (fun hp => absurd hc2 (not_lt.mpr hp.2))
    · rw [if_neg hc2] at h
      cases h
      exact iff_of_true rfl ⟨not_lt.mp hc1, not_lt.mp hc2⟩

/-- C4 witness: the characterization applied to the one-point history 10
with best ask 12 and best bid 9, where the step succeeds with no entry
order. -/
theorem C4_entry_characterization_witness :
    (((quietData, (0 : Int), ([] : List Order)) :
        StarfruitData × Int × List Order).2.2 = [] ↔
      quietData.last_ask_prices.sum / (quietData.last_ask_prices.length : ℚ) ≤
        ((12 : Int) : ℚ) ∧
      ((9 : Int) : ℚ) ≤
        quietData.last_bid_prices.sum / (quietData.last_bid_prices.length : ℚ)) :=
  C4_entry_characterization quietData 12 9 0 (quietData, 0, [])
    (by norm_num [quietData]) (by norm_num [quietData])
    (by norm_num [momentumStep, quietData])

/-- C5 counterexample: one tick of the long-exit block emitting two
orders from one side.  With position 0, long ledger holding lots at
prices 0, 9 and 10, and two ask levels 10 and 9, the loop runs twice
and appends two orders, instead of stopping after the first qualifying
lot. -/
theorem C5_counterexample :
    longExitStep [(10, -3), (9, -2)] [(0, 1), (9, 7), (10, 7)] 0 =
      .ok ([(0, 1), (9, 9), (10, 10)], 5,
        [⟨"STARFRUIT", 10, 3⟩, ⟨"STARFRUIT", 9, 2⟩]) := rfl

/-- C5 amended: the exit blocks may emit several orders per side in one
tick; each loop iteration emits exactly one order and either consumes
the top book level or terminates the loop, so the number of exit orders
on a side is bounded by that sides book depth plus one, not by one. -/
theorem C5_exit_order_bound :
    (∀ (sell_orders : Book) (long_at : List (Int × Int)) (position : Int) res,
        longExitStep sell_orders long_at position = .ok res →
        res.2.2.length ≤ sell_orders.length + 1) ∧
    (∀ (buy_orders : Book) (long_at short_at : List (Int × Int)) (position : Int) res,
        shortExitStep buy_orders long_at short_at position = .ok res →
        res.2.2.length ≤ buy_orders.length + 1) := by
  constructor
  · intro sell_orders long_at position res h
    unfold longExitStep at h
    split at h
    · have h2 := longExitLoop_orders_le _ _ _ _ _ _ _ h
      rw [sortByPriceDesc_length] at h2
      simpa using h2
    · cases h; simp
  · intro buy_orders long_at short_at position res h
    unfold shortExitStep at h
    split at h
    · have h2 := shortExitLoop_orders_le _ _ _ _ _ _ _ h
      rw [sortByPrice_length] at h2
      simpa using h2
    · cases h; simp

/-- C5 witness: the bound applied to the two-level ask book of the
counterexample input, where two orders are emitted against two levels. -/
theorem C5_exit_order_bound_witness :
    ([⟨"STARFRUIT", 10, 3⟩, ⟨"STARFRUIT", 9, 2⟩] : List Order).length ≤
      [((10 : Int), (-3 : Int)), ((9 : Int), (-2 : Int))].length + 1 :=
  C5_exit_order_bound.1 [(10, -3), (9, -2)] [(0, 1), (9, 7), (10, 7)] 0
    ([(0, 1), (9, 9), (10, 10)], 5, [⟨"STARFRUIT", 10, 3⟩, ⟨"STARFRUIT", 9, 2⟩]) rfl

/-- C6 counterexample: a tick whose ask side is empty is claimed to be
skipped silently by both strategies, but the adaptive strategy indexes
item 0 of the empty side unconditionally (main.py line 240) and fails
with an IndexError. -/
theorem C6_counterexample :
    starfruit ⟨[("STARFRUIT", ⟨[(4, 1)], []⟩)], [], none⟩ = .error .indexError := rfl

/-- C6 amended: when a book side is empty the static-band strategy
raises no exception and emits nothing from the branch that reads the
empty side: it returns successfully with at most one order, and any
returned order is priced at the best level of the nonempty side with
that branches clamp, while the adaptive strategy fails with an
IndexError. -/
theorem C6_empty_side (buy_orders sell_orders : Book) (posm : List (String × Int))
    (td : Option StarfruitData)
    (h : sell_orders = [] ∨ buy_orders = []) :
    (∃ os, amethyst ⟨[("AMETHYSTS", ⟨buy_orders, sell_orders⟩)], posm, td⟩ = .ok os ∧
      os.length ≤ 1 ∧
      (sell_orders = [] → ∀ o ∈ os, ∃ bb ba rest, buy_orders = (bb, ba) :: rest ∧
        o = ⟨"AMETHYSTS", bb, -(max_sell_amt (pyGet posm "AMETHYSTS") 20 ba)⟩) ∧
      (buy_orders = [] → ∀ o ∈ os, ∃ ap ra rest, sell_orders = (ap, ra) :: rest ∧
        o = ⟨"AMETHYSTS", ap, max_buy_amt (pyGet posm "AMETHYSTS") 20 (-ra)⟩)) ∧
    starfruit ⟨[("STARFRUIT", ⟨buy_orders, sell_orders⟩)], posm, td⟩ =
      .error .indexError := by
  have hfa : dictFind [("AMETHYSTS", (⟨buy_orders, sell_orders⟩ : OrderDepth))]
      "AMETHYSTS" = some ⟨buy_orders, sell_orders⟩ := by
    simp [dictFind, List.find?]
  have hfs : dictFind [("STARFRUIT", (⟨buy_orders, sell_orders⟩ : OrderDepth))]
      "STARFRUIT" = some ⟨buy_orders, sell_orders⟩ := by
    simp [dictFind, List.find?]
  rcases h with h | h <;> subst h
  · refine ⟨?_, by rw [starfruit, hfs]⟩
    cases buy_orders with
    | nil =>
      exact ⟨[], by simp [amethyst, hfa], by simp, by simp, by simp⟩
    | cons b rest =>
      obtain ⟨bp, ba⟩ := b
      by_cases hbp : bp ≥ (10002 : Int)
      · refine ⟨[⟨"AMETHYSTS", bp, -(max_sell_amt (pyGet posm "AMETHYSTS") 20 ba)⟩],
          ?_, ?_, ?_, ?_⟩
        · simp [amethyst, hfa, hbp]
        · simp
        · intro _ o ho
          exact ⟨bp, ba, rest, rfl, by simpa using ho⟩
        · intro heq
          exact absurd heq (List.cons_ne_nil _ _)
      · refine ⟨[], ?_, by simp, by simp, ?_⟩
        · simp [amethyst, hfa, hbp]
        · intro heq
          exact absurd heq (List.cons_ne_nil _ _)
  · refine ⟨?_, ?_⟩
    · cases sell_orders with
      | nil =>
        exact ⟨[], by simp [amethyst, hfa], by simp, by simp, by simp⟩
      | cons a rest =>
        obtain ⟨ap, ra⟩ := a
        by_cases hap : ap ≤ (9998 : Int)
        · refine ⟨[⟨"AMETHYSTS", ap, max_buy_amt (pyGet posm "AMETHYSTS") 20 (-ra)⟩],
            ?_, ?_, ?_, ?_⟩
          · simp [amethyst, hfa, hap]
          · simp
          · intro heq
            exact absurd heq (List.cons_ne_nil _ _)
          · intro _ o ho
            exact ⟨ap, ra, rest, rfl, by simpa using ho⟩
        · refine ⟨[], ?_, by simp, ?_, by simp⟩
          · simp [amethyst, hfa, hap]
          · intro heq
            exact absurd heq (List.cons_ne_nil _ _)
    · rw [starfruit, hfs]
      cases sell_orders with
      | nil => rfl
      | cons a rest => rfl

/-- C6 witness: the amended statement at an empty ask side with the
single bid level 4, where amethyst succeeds with no orders and
starfruit fails with an IndexError. -/
theorem C6_empty_side_witness :
    (∃ os, amethyst ⟨[("AMETHYSTS", ⟨[(4, 1)], []⟩)], [], none⟩ = .ok os ∧
      os.length ≤ 1 ∧
      (([] : Book) = [] → ∀ o ∈ os, ∃ bb ba rest,
        [((4 : Int), (1 : Int))] = (bb, ba) :: rest ∧
        o = ⟨"AMETHYSTS", bb, -(max_sell_amt (pyGet [] "AMETHYSTS") 20 ba)⟩) ∧
      ([((4 : Int), (1 : Int))] = ([] : Book) → ∀ o ∈ os, ∃ ap ra rest,
        ([] : Book) = (ap, ra) :: rest ∧
        o = ⟨"AMETHYSTS", ap, max_buy_amt (pyGet [] "AMETHYSTS") 20 (-ra)⟩)) ∧
    starfruit ⟨[("STARFRUIT", ⟨[(4, 1)], []⟩)], [], none⟩ = .error .indexError :=
  C6_empty_side [(4, 1)] [] [] none (Or.inl rfl)

/-- C7 counterexample: a tick that reaches the history update without
any earlier failure (empty ledgers, one-point histories, no entry
fired) still does not append anything: the update reads the undefined
last_prices attribute and the tick dies with an AttributeError, so the
mid-price is never appended. -/
theorem C7_counterexample :
    starfruit quietState = .error .attributeError := by
  norm_num [starfruit, quietState, quietData, pyGet, dictFind, longExitStep,
    shortExitStep, momentumStep, StarfruitData.update_last_prices]

/-- C7 amended: no tick of the adaptive strategy ever completes the
price-history update, because update_last_prices reads the last_prices
attribute that the class never initializes; every call of starfruit
fails with some error (an AttributeError when everything before the
update succeeds), so the histories are never extended and no encoded
state is ever returned. -/
theorem C7_starfruit_never_completes (state : PyState) :
    ∃ e, starfruit state = .error e := by
  unfold starfruit
  dsimp only
  repeat' split
  all_goals first
    | exact ⟨_, rfl⟩
    | simp_all [StarfruitData.update_last_prices]

/-- C8 counterexample: a state with the single long lot keyed by the int
price 10 does not survive the encode-decode round trip unchanged: the
key comes back as the string 10. -/
theorem C8_counterexample :
    jsonpickleRoundTrip ⟨[10], [10], [(.int 10, 5)], []⟩ ≠
      (⟨[10], [10], [(.int 10, 5)], []⟩ : StarfruitBlob) := by
  decide

/-- C8 amended: the encode-decode round trip preserves both histories
exactly and preserves the order and quantity of every lot, but coerces
every int ledger key to its decimal string; it is idempotent, and it is
the identity precisely on states whose ledger keys are already strings. -/
theorem C8_roundtrip_structure (d : StarfruitBlob) :
    (jsonpickleRoundTrip d).last_bid_prices = d.last_bid_prices ∧
    (jsonpickleRoundTrip d).last_ask_prices = d.last_ask_prices ∧
    (jsonpickleRoundTrip d).long_at.map Prod.snd = d.long_at.map Prod.snd ∧
    (jsonpickleRoundTrip d).short_at.map Prod.snd = d.short_at.map Prod.snd ∧
    jsonpickleRoundTrip (jsonpickleRoundTrip d) = jsonpickleRoundTrip d ∧
    ((∀ x ∈ d.long_at, x.1.isStr = true) → (∀ x ∈ d.short_at, x.1.isStr = true) →
      jsonpickleRoundTrip d = d) := by
  have hfix : ∀ kv : JKey × Int, jkeyStringify (jkeyStringify kv.1) = jkeyStringify kv.1 := by
    intro kv
    cases kv.1 <;> rfl
  have hid : ∀ l : List (JKey × Int), (∀ x ∈ l, x.1.isStr = true) →
      l.map (fun kv => (jkeyStringify kv.1, kv.2)) = l := by
    intro l hl
    induction l with
    | nil => rfl
    | cons x xs ih =>
      obtain ⟨k, v⟩ := x
      have hk : k.isStr = true := hl (k, v) (by simp)
      cases k with
      | int i => simp [JKey.isStr] at hk
      | str s =>
        simp only [List.map_cons]
        rw [ih (fun y hy => hl y (List.mem_cons_of_mem _ hy))]
        rfl
  refine ⟨rfl, rfl, ?_, ?_, ?_, ?_⟩
  · simp [jsonpickleRoundTrip, List.map_map, Function.comp]
  · simp [jsonpickleRoundTrip, List.map_map, Function.comp]
  · simp only [jsonpickleRoundTrip, List.map_map]
    congr 1 <;> exact List.map_congr_left (fun kv _ => by rw [Function.comp_apply, hfix kv])
  · intro h1 h2
    cases d
    simp only [jsonpickleRoundTrip]
    congr 1 <;> [exact hid _ h1; exact hid _ h2]

/-- C8 witness: the round trip is the identity on a state whose single
ledger key is already the string 10. -/
theorem C8_roundtrip_structure_witness :
    jsonpickleRoundTrip ⟨[10], [10], [(.str "10", 5)], []⟩ =
      (⟨[10], [10], [(.str "10", 5)], []⟩ : StarfruitBlob) :=
  (C8_roundtrip_structure ⟨[10], [10], [(.str "10", 5)], []⟩).2.2.2.2.2
    (by decide) (by decide)

/-- Helper: a product entry with key AMETHYSTS in the order-depth map
makes the amethyst strategy return without error. -/
theorem amethyst_ok_of_mem (state : PyState) (od : OrderDepth)
    (hmem : ("AMETHYSTS", od) ∈ state.order_depths) :
    ∃ os, amethyst state = .ok os := by
  have hsome : (state.order_depths.find? (fun kv => kv.1 == "AMETHYSTS")).isSome := by
    rw [List.find?_isSome]
    exact ⟨_, hmem, by simp⟩
  cases hf : state.order_depths.find? (fun kv => kv.1 == "AMETHYSTS") with
  | none => rw [hf] at hsome; simp at hsome
  | some v =>
    simp only [amethyst, dictFind, hf, Option.map_some]
    exact ⟨_, rfl⟩

/-- Helper: the dispatch loop over a product list that contains no
STARFRUIT entry never assigns the traderData local. -/
theorem runLoop_no_starfruit (state : PyState) :
    ∀ (l : List (String × OrderDepth)) (result : List (String × List Order)),
      (∀ x ∈ l, x ∈ state.order_depths) → (∀ x ∈ l, x.1 ≠ "STARFRUIT") →
      ∃ res, runLoop state l result none = .ok (res, none) := by
  intro l
  induction l with
  | nil => exact fun result _ _ => ⟨result, rfl⟩
  | cons hd tl ih =>
    intro result hsub hns
    obtain ⟨product, od⟩ := hd
    by_cases hA : product = "AMETHYSTS"
    · subst hA
      obtain ⟨os, hos⟩ :=
        amethyst_ok_of_mem state od (hsub ("AMETHYSTS", od) (List.mem_cons_self _ _))
      obtain ⟨res, hres⟩ := ih (result ++ [("AMETHYSTS", os)])
        (fun x hx => hsub x (List.mem_cons_of_mem _ hx))
        (fun x hx => hns x (List.mem_cons_of_mem _ hx))
      exact ⟨res, by rw [runLoop, if_pos rfl, hos]; exact hres⟩
    · have hS : product ≠ "STARFRUIT" := hns (product, od) (List.mem_cons_self _ _)
      obtain ⟨res, hres⟩ := ih result
        (fun x hx => hsub x (List.mem_cons_of_mem _ hx))
        (fun x hx => hns x (List.mem_cons_of_mem _ hx))
      exact ⟨res, by rw [runLoop, if_neg hA, if_neg hS]; exact hres⟩

/-- C10: when the order-depth map contains no STARFRUIT entry, the
dispatch loop never assigns the traderData local, and Trader.run fails
with an UnboundLocalError when it reads that local for the flush and the
return value. -/
theorem C10_missing_starfruit_unbound (state : PyState)
    (h : "STARFRUIT" ∉ state.order_depths.map Prod.fst) :
    Trader.run state = .error .unboundLocal := by
  obtain ⟨res, hres⟩ := runLoop_no_starfruit state state.order_depths []
    (fun x hx => hx)
    (fun x hx heq => h (heq ▸ List.mem_map_of_mem Prod.fst hx))
  rw [Trader.run, hres]

/-- C10 witness: a tick whose order-depth map holds only AMETHYSTS makes
Trader.run fail with an UnboundLocalError. -/
theorem C10_missing_starfruit_unbound_witness :
    Trader.run amethystScenarioState = .error .unboundLocal :=
  C10_missing_starfruit_unbound amethystScenarioState (by decide)
